import Mathlib

/-
Verification of the event-queue / delivery / identity core of
`cc-site-client.js` (the "Credibility Compass" embeddable analytics client).
The source file contains three near-identical copies of the same script; the
core modelled here (privacy gate, identity, referrer trail, event queue,
delivery engine) is byte-identical across the copies, so one embedding covers
all three.  Line references below are into the first copy.

Modelling conventions:
- JavaScript numbers used as millisecond timestamps are modelled as `Int`
  (so that differences such as `nowTs - s.last` behave as in the source).
- `localStorage` is modelled as an explicit `Store` record threaded through
  the identity functions; `ls.get` returning `null` is `Option.none`.
- Randomness (`uuid()`) is modelled by passing the freshly generated id as an
  explicit argument.
- The network is modelled by explicit outcomes: `beaconOk` is the result of
  `navigator.sendBeacon` (false also covers "unavailable" and "threw"), and
  the fallback `fetch` promise settling is a separate step.  A fetch promise
  rejects only on network errors; a response with any HTTP status — 2xx or
  not — fulfils it.  `fetchSettle` takes fulfilment as a boolean;
  `fetchSettleOutcome` exposes the rejected/resolved-with-status split.
-/

namespace CC

/-- A JavaScript value, as far as the client inspects one: the public track
entry point only tests truthiness and `typeof`, and otherwise treats payloads
as opaque. -/
inductive JSVal where
  | nullv
  | undef
  | boolv (b : Bool)
  | numv (n : Int)
  | strv (s : String)
  | obj (fields : List (String × JSVal))
deriving Repr

/-- JavaScript `typeof` on the modelled values (note `typeof null` is
`"object"`). -/
def JSVal.typeof : JSVal → String
  | .nullv => "object"
  | .undef => "undefined"
  | .boolv _ => "boolean"
  | .numv _ => "number"
  | .strv _ => "string"
  | .obj _ => "object"

/-- JavaScript truthiness on the modelled values (every object, even `{}`,
is truthy). -/
def JSVal.truthy : JSVal → Bool
  | .nullv => false
  | .undef => false
  | .boolv b => b
  | .numv n => n != 0
  | .strv s => s != ""
  | .obj _ => true

/-- JavaScript `String(·)` conversion on the modelled values. -/
def JSVal.jsString : JSVal → String
  | .nullv => "null"
  | .undef => "undefined"
  | .boolv true => "true"
  | .boolv false => "false"
  | .numv n => toString n
  | .strv s => s
  | .obj _ => "[object Object]"

/-- The configuration fields the core consumes (source: the `cfg` object,
resolved once at startup). -/
structure Cfg where
  siteId : String
  endpoint : String
  consentRequired : Bool
  sessionTimeoutMs : Int
  maxBatch : Nat
deriving Repr, DecidableEq

/-- The do-not-track environment signals read at script load:
`navigator.doNotTrack`, `navigator.msDoNotTrack`, `window.doNotTrack`
(`none` models an absent / `null` / `undefined` signal). -/
structure Env where
  navDoNotTrack : Option String
  msDoNotTrack : Option String
  winDoNotTrack : Option String
deriving Repr, DecidableEq

/-- Source line 123: `const dnt = (N.doNotTrack == '1' || N.msDoNotTrack ==
'1' || W.doNotTrack == '1')`.  Evaluated once, at script load. -/
def dntSignal (e : Env) : Bool :=
  e.navDoNotTrack == some "1" || e.msDoNotTrack == some "1" ||
    e.winDoNotTrack == some "1"

/-- A stored session record (`cc_sid` in localStorage). -/
structure Session where
  id : String
  started : Int
  last : Int
deriving Repr, DecidableEq

/-- The persistent key-value store as the core uses it: visitor id
(`cc_vid`), session record (`cc_sid`), consent flag (`cc_consent_granted`,
only ever written as `true`), referrer trail (`cc_ref`). -/
structure Store where
  vid : Option String
  sid : Option Session
  consentGranted : Bool
  refTrail : List String
deriving Repr, DecidableEq

/-- Source line 124: `const hasConsent = ()=> !cfg.consentRequired ||
!!ls.get('cc_consent_granted', false)`. -/
def hasConsent (cfg : Cfg) (consentGranted : Bool) : Bool :=
  !cfg.consentRequired || consentGranted

/-- Source line 125: `const readyToTrack = ()=> !dnt && hasConsent() &&
!!cfg.siteId && !!cfg.endpoint` (string truthiness: non-empty).  The `dnt`
argument is the value of the load-time constant of line 123. -/
def readyToTrack (dnt : Bool) (cfg : Cfg) (consentGranted : Bool) : Bool :=
  !dnt && hasConsent cfg consentGranted && !(cfg.siteId == "") &&
    !(cfg.endpoint == "")

/-- The gate as observed by a call made while the environment is
`currentEnv`, on a client whose script was loaded while the environment was
`initEnv`: since line 123 computes `dnt` into a `const` captured by the
`readyToTrack` closure, the call uses `initEnv` and ignores `currentEnv`. -/
def readyToTrackAt (initEnv : Env) (_currentEnv : Env) (cfg : Cfg)
    (consentGranted : Bool) : Bool :=
  readyToTrack (dntSignal initEnv) cfg consentGranted

/-- Source line 456: `consentGranted(){ ls.set('cc_consent_granted', true) }`. -/
def grantConsent (store : Store) : Store :=
  { store with consentGranted := true }

/-- Source line 130: `getVisitorId` — read `cc_vid`; if falsy (absent or
empty), persist and return the freshly generated uuid (passed in as
`fresh`). -/
def getVisitorId (store : Store) (fresh : String) : String × Store :=
  match store.vid with
  | none => (fresh, { store with vid := some fresh })
  | some id =>
      if id = "" then (fresh, { store with vid := some fresh })
      else (id, store)

/-- Source lines 131-138: `getSessionId` — read `cc_sid`; mint a new session
(`id := fresh`, `started = last = nowTs`) when the record is absent, has a
falsy id, or `nowTs - s.last > cfg.sessionTimeoutMs`; otherwise touch
`last := nowTs`.  Either way the record is persisted and its id returned. -/
def getSessionId (cfg : Cfg) (store : Store) (nowTs : Int) (fresh : String) :
    String × Store :=
  let s : Session :=
    match store.sid with
    | none => { id := fresh, started := nowTs, last := nowTs }
    | some s =>
        if s.id = "" ∨ nowTs - s.last > cfg.sessionTimeoutMs then
          { id := fresh, started := nowTs, last := nowTs }
        else { s with last := nowTs }
  (s.id, { store with sid := some s })

/-- Source line 139: `touchSession` — update `last` without rotating the id
if a session record exists; no-op otherwise. -/
def touchSession (store : Store) (nowTs : Int) : Store :=
  match store.sid with
  | none => store
  | some s => { store with sid := some { s with last := nowTs } }

/-- Source lines 147-148 (run once at load): append `document.referrer` to
the trail if it is truthy and differs from the trail's last entry, then drop
the oldest entry if the length exceeds 5. -/
def refTrailAppend (trail : List String) (referrer : String) : List String :=
  if referrer ≠ "" ∧ (trail = [] ∨ trail.getLast? ≠ some referrer) then
    if (trail ++ [referrer]).length > 5 then (trail ++ [referrer]).tail
    else trail ++ [referrer]
  else trail

/-- The page/environment context snapshot read inside `baseEvent` at call
time, together with the uuids that `uuid()` would mint on this call. -/
structure PageCtx where
  nowTs : Int
  url : String
  path : String
  title : String
  referrer : String
  lang : String
  tz : Option String
  vpW : Int
  vpH : Int
  scX : Int
  scY : Int
  freshSid : String
  freshVid : String
deriving Repr, DecidableEq

/-- An event record, source lines 153-166 (`baseEvent`'s object literal). -/
structure Event where
  t : String
  ts : Int
  sid : String
  vid : String
  site : String
  url : String
  path : String
  title : String
  ref : Option String
  lang : String
  tz : Option String
  vp : Int × Int
  sc : Int × Int
  utm : List (String × String)
  trail : List String
  payload : JSVal
deriving Repr

/-- Source lines 153-166: build an event record.  The object literal
evaluates `getSessionId()` then `getVisitorId()` in order, threading the
store; `utm` is the load-time UTM map, `trail` the load-time referrer
trail (held in the store). -/
def baseEvent (cfg : Cfg) (utm : List (String × String)) (store : Store)
    (c : PageCtx) (type : String) (payload : JSVal) : Event × Store :=
  let r1 := getSessionId cfg store c.nowTs c.freshSid
  let r2 := getVisitorId r1.2 c.freshVid
  ({ t := type, ts := c.nowTs, sid := r1.1, vid := r2.1,
     site := cfg.siteId,
     url := c.url, path := c.path, title := c.title,
     ref := if c.referrer = "" then none else some c.referrer,
     lang := c.lang, tz := c.tz,
     vp := (c.vpW, c.vpH), sc := (c.scX, c.scY),
     utm := utm, trail := store.refTrail, payload := payload }, r2.2)

/-- The delivery-engine state, source line 152:
`const state = { queue: [], flushing:false }`. -/
structure QState where
  queue : List Event
  flushing : Bool
deriving Repr

/-- What the synchronous part of `flush()` did: nothing was sent, the batch
went out via `sendBeacon`, or a fallback `fetch` POST of the batch is now in
flight. -/
inductive FlushAction where
  | noSend
  | beacon (batch : List Event)
  | fetchPending (batch : List Event)
deriving Repr

/-- Source lines 172-189, the synchronous part of `flush()`: no-op when the
gate denies, a flush is in progress, or the queue is empty; otherwise set
`flushing`, splice out the whole queue as the batch, and try `sendBeacon`.
On beacon success `flushing` is cleared before returning; on beacon
failure/unavailability the fallback `fetch` is started and `flushing` stays
set until the promise settles (`fetchSettle` below). -/
def flushSync (dnt : Bool) (cfg : Cfg) (store : Store) (st : QState)
    (beaconOk : Bool) : QState × FlushAction :=
  if readyToTrack dnt cfg store.consentGranted = false ∨ st.flushing = true ∨
      st.queue.length = 0 then
    (st, .noSend)
  else
    let batch := st.queue
    if beaconOk then ({ queue := [], flushing := false }, .beacon batch)
    else ({ queue := [], flushing := true }, .fetchPending batch)

/-- Source lines 183-185: settlement of the fallback `fetch`.  `st` is the
delivery-engine state at settlement time (its queue holds whatever was
enqueued while the request was in flight).  `ok` is whether the promise
fulfilled: when it rejects (`ok := false`) the `.catch` handler runs
`state.queue.unshift(...batch)`, putting the whole batch back at the front
in its original order; when it fulfils the `.catch` is skipped — the code
never inspects the response status, so a non-2xx response is `ok := true`
here.  The `.finally` handler clears `flushing` in either case. -/
def fetchSettle (st : QState) (batch : List Event) (ok : Bool) : QState :=
  if ok then { st with flushing := false }
  else { queue := batch ++ st.queue, flushing := false }

/-- An outcome of the fallback `fetch` call: the promise rejects (network
error — the request never produced a response) or resolves with an HTTP
response of some status.  A non-2xx response is a `resolved` outcome. -/
inductive FetchOutcome where
  | rejected
  | resolved (status : Nat)
deriving Repr, DecidableEq

/-- Settlement of the fallback `fetch` by outcome, source lines 183-185:
the chain attaches only `.catch` and `.finally`, so the requeue runs
exactly when the promise rejects; a resolved response — whatever its
status, 2xx or not — skips the `.catch` and the batch is dropped.
`flushing` is cleared either way. -/
def fetchSettleOutcome (st : QState) (batch : List Event) :
    FetchOutcome → QState
  | .rejected => { queue := batch ++ st.queue, flushing := false }
  | .resolved _ => { st with flushing := false }

/-- Source lines 167-171, `enqueue(type, payload)`: silent no-op unless the
gate allows; otherwise push `baseEvent(type, payload)` and, if the queue
length has reached `cfg.maxBatch`, call `flush()` synchronously. -/
def enqueue (dnt : Bool) (cfg : Cfg) (utm : List (String × String))
    (beaconOk : Bool) (store : Store) (st : QState) (c : PageCtx)
    (type : String) (payload : JSVal) : Store × QState × FlushAction :=
  if readyToTrack dnt cfg store.consentGranted = false then
    (store, st, .noSend)
  else
    let r := baseEvent cfg utm store c type payload
    let st' : QState := { st with queue := st.queue ++ [r.1] }
    if cfg.maxBatch ≤ st'.queue.length then
      let f := flushSync dnt cfg r.2 st' beaconOk
      (r.2, f.1, f.2)
    else (r.2, st', .noSend)

/-- A single enqueue call's inputs. -/
structure EnqCall where
  c : PageCtx
  type : String
  payload : JSVal
deriving Repr

/-- Run a sequence of `enqueue` calls, threading store and queue state. -/
def enqueueMany (dnt : Bool) (cfg : Cfg) (utm : List (String × String))
    (beaconOk : Bool) : Store × QState → List EnqCall → Store × QState
  | acc, [] => acc
  | acc, call :: rest =>
      let r := enqueue dnt cfg utm beaconOk acc.1 acc.2 call.c call.type
        call.payload
      enqueueMany dnt cfg utm beaconOk (r.1, r.2.1) rest

/-- The records `baseEvent` creates for a sequence of calls, in call order
(threading the identity store exactly as `enqueue` does). -/
def createdRecords (cfg : Cfg) (utm : List (String × String)) :
    Store → List EnqCall → List Event
  | _, [] => []
  | store, call :: rest =>
      let r := baseEvent cfg utm store call.c call.type call.payload
      r.1 :: createdRecords cfg utm r.2 rest

/-- Source line 455: the public `API.track` (`window.CC.embed.track`) is
`enqueue` itself — the arguments are passed through unchanged. -/
def apiTrack (dnt : Bool) (cfg : Cfg) (utm : List (String × String))
    (beaconOk : Bool) (store : Store) (st : QState) (c : PageCtx)
    (type : String) (payload : JSVal) : Store × QState × FlushAction :=
  enqueue dnt cfg utm beaconOk store st c type payload

/-- Source line 769, payload normalisation in `window.CC_EMBED.track`:
`payload && typeof payload==='object' ? payload : {}`. -/
def ccEmbedTrackPayload (payload : JSVal) : JSVal :=
  if payload.truthy && (payload.typeof == "object") then payload
  else .obj []

/-- Source line 769, type normalisation in `window.CC_EMBED.track`:
`String(type||'custom')`. -/
def ccEmbedTrackType (type : JSVal) : String :=
  (if type.truthy then type else .strv "custom").jsString

/-- Source lines 766-772: the public `window.CC_EMBED.track(type, payload)`
entry point — normalise the arguments, then `enqueue` (the trailing
`scheduleFlush()` only arms a 250 ms timer and is not modelled). -/
def ccEmbedTrack (dnt : Bool) (cfg : Cfg) (utm : List (String × String))
    (beaconOk : Bool) (store : Store) (st : QState) (c : PageCtx)
    (type : JSVal) (payload : JSVal) : Store × QState × FlushAction :=
  enqueue dnt cfg utm beaconOk store st c (ccEmbedTrackType type)
    (ccEmbedTrackPayload payload)

/-! Concrete example values used by witnesses and counterexamples. -/

/-- A complete configuration (consent not required), with the default
tunables of the source (30 min session timeout, batch size 20). -/
def cfgEx : Cfg :=
  { siteId := "site-1", endpoint := "https://collector.example/ingest",
    consentRequired := false, sessionTimeoutMs := 1800000, maxBatch := 20 }

/-- A store holding a visitor id and a live session last touched at t = 0. -/
def storeEx : Store :=
  { vid := some "v-1", sid := some { id := "s-1", started := 0, last := 0 },
    consentGranted := false, refTrail := [] }

/-- A page context snapshot for an enqueue call at t = 1000. -/
def ctxEx : PageCtx :=
  { nowTs := 1000, url := "https://host.example/a", path := "/a",
    title := "A", referrer := "", lang := "en", tz := some "UTC",
    vpW := 800, vpH := 600, scX := 0, scY := 0,
    freshSid := "ns-1", freshVid := "nv-1" }

/-! Helper lemmas (shared). -/

lemma getSessionId_consent (cfg : Cfg) (store : Store) (n : Int)
    (f : String) :
    ((getSessionId cfg store n f).2).consentGranted = store.consentGranted :=
  rfl

lemma getVisitorId_consent (store : Store) (f : String) :
    ((getVisitorId store f).2).consentGranted = store.consentGranted := by
  unfold getVisitorId
  rcases store with ⟨vid, sid, cg, rt⟩
  cases vid with
  | none => rfl
  | some id =>
      by_cases h : id = "" <;> simp [h]

lemma getSessionId_refTrail (cfg : Cfg) (store : Store) (n : Int)
    (f : String) :
    ((getSessionId cfg store n f).2).refTrail = store.refTrail :=
  rfl

lemma getVisitorId_refTrail (store : Store) (f : String) :
    ((getVisitorId store f).2).refTrail = store.refTrail := by
  unfold getVisitorId
  rcases store with ⟨vid, sid, cg, rt⟩
  cases vid with
  | none => rfl
  | some id =>
      by_cases h : id = "" <;> simp [h]

lemma baseEvent_consent (cfg : Cfg) (utm : List (String × String))
    (store : Store) (c : PageCtx) (ty : String) (p : JSVal) :
    ((baseEvent cfg utm store c ty p).2).consentGranted =
      store.consentGranted := by
  unfold baseEvent
  rw [getVisitorId_consent, getSessionId_consent]

lemma baseEvent_payload (cfg : Cfg) (utm : List (String × String))
    (store : Store) (c : PageCtx) (ty : String) (p : JSVal) :
    ((baseEvent cfg utm store c ty p).1).payload = p :=
  rfl

lemma enqueue_allowed_append (dnt : Bool) (cfg : Cfg)
    (utm : List (String × String)) (beaconOk : Bool) (store : Store)
    (st : QState) (c : PageCtx) (ty : String) (p : JSVal)
    (h : readyToTrack dnt cfg store.consentGranted = true)
    (hlen : st.queue.length + 1 < cfg.maxBatch) :
    enqueue dnt cfg utm beaconOk store st c ty p =
      ((baseEvent cfg utm store c ty p).2,
        { queue := st.queue ++ [(baseEvent cfg utm store c ty p).1],
          flushing := st.flushing }, .noSend) := by
  unfold enqueue
  rw [h]
  simp only [Bool.true_eq_false, if_false]
  rw [if_neg (by simp; omega)]

lemma flushSync_go (dnt : Bool) (cfg : Cfg) (store : Store) (st : QState)
    (beaconOk : Bool)
    (hready : readyToTrack dnt cfg store.consentGranted = true)
    (hfl : st.flushing = false) (hq : st.queue ≠ []) :
    flushSync dnt cfg store st beaconOk =
      if beaconOk then (⟨[], false⟩, .beacon st.queue)
      else (⟨[], true⟩, .fetchPending st.queue) := by
  unfold flushSync
  rw [if_neg]
  push_neg
  exact ⟨by simp [hready], by simp [hfl],
    by simp [List.length_eq_zero, hq]⟩

lemma flushSync_noop (dnt : Bool) (cfg : Cfg) (store : Store) (st : QState)
    (beaconOk : Bool)
    (h : readyToTrack dnt cfg store.consentGranted = false ∨
      st.flushing = true ∨ st.queue.length = 0) :
    flushSync dnt cfg store st beaconOk = (st, .noSend) := by
  unfold flushSync
  rw [if_pos h]

/-! Claim theorems. -/

/-- C4: for every configuration and stored consent state, `readyToTrack`
returns exactly: NOT doNotTrack AND (consent not required OR consent
granted) AND site id non-empty AND endpoint non-empty. -/
theorem readyToTrack_formula (dnt : Bool) (cfg : Cfg) (g : Bool) :
    readyToTrack dnt cfg g = true ↔
      (dnt = false ∧ (cfg.consentRequired = false ∨ g = true) ∧
        cfg.siteId ≠ "" ∧ cfg.endpoint ≠ "") := by
  cases dnt <;> cases g <;> rcases cfg with ⟨site, ep, cr, tmo, mb⟩ <;>
    cases cr <;> simp [readyToTrack, hasConsent]

/-- C2: with a stored session (non-empty id, last touch `last`), a call at
`now` keeps the stored id and sets `last := now` exactly when
`now - last ≤ sessionTimeoutMs`, and mints the fresh id with
`started = last = now` when `now - last > sessionTimeoutMs`; in particular a
read at `last + sessionTimeoutMs - 1` keeps the id and a read at
`last + sessionTimeoutMs + 1` returns the (different) fresh id. -/
theorem getSessionId_expiry (cfg : Cfg) (store : Store) (s : Session)
    (nowTs : Int) (fresh : String)
    (hs : store.sid = some s) (hid : s.id ≠ "") :
    (nowTs - s.last ≤ cfg.sessionTimeoutMs →
      getSessionId cfg store nowTs fresh =
        (s.id, { store with sid := some { s with last := nowTs } })) ∧
    (nowTs - s.last > cfg.sessionTimeoutMs →
      getSessionId cfg store nowTs fresh =
        (fresh,
          { store with sid := some (⟨fresh, nowTs, nowTs⟩ : Session) })) ∧
    (getSessionId cfg store (s.last + cfg.sessionTimeoutMs - 1) fresh).1 =
      s.id ∧
    (fresh ≠ s.id →
      (getSessionId cfg store (s.last + cfg.sessionTimeoutMs + 1)
        fresh).1 = fresh ∧
      (getSessionId cfg store (s.last + cfg.sessionTimeoutMs + 1)
        fresh).1 ≠ s.id) := by
  refine ⟨?_, ?_, ?_, ?_⟩
  · intro h
    have hcond : ¬(s.id = "" ∨ nowTs - s.last > cfg.sessionTimeoutMs) := by
      push_neg
      exact ⟨hid, by omega⟩
    simp [getSessionId, hs, hcond]
  · intro h
    have hcond : s.id = "" ∨ nowTs - s.last > cfg.sessionTimeoutMs :=
      Or.inr h
    simp [getSessionId, hs, hcond]
  · have hcond : ¬(s.id = "" ∨
        s.last + cfg.sessionTimeoutMs - 1 - s.last >
          cfg.sessionTimeoutMs) := by
      push_neg
      exact ⟨hid, by omega⟩
    simp [getSessionId, hs, hcond]
  · intro hne
    have hcond : s.id = "" ∨
        s.last + cfg.sessionTimeoutMs + 1 - s.last >
          cfg.sessionTimeoutMs :=
      Or.inr (by omega)
    simp [getSessionId, hs, hcond]
    exact hne

/-- Witness for C2 at the concrete example state: session "s-1" last touched
at 0, timeout 1 800 000 — a read at 1 799 999 keeps "s-1", a read at
1 800 001 returns the fresh id "ns". -/
theorem getSessionId_expiry_witness :
    (getSessionId cfgEx storeEx 1799999 "ns").1 = "s-1" ∧
    (getSessionId cfgEx storeEx 1800001 "ns").1 = "ns" := by
  have h := getSessionId_expiry cfgEx storeEx
    { id := "s-1", started := 0, last := 0 } 1799999 "ns" rfl (by decide)
  exact ⟨h.2.2.1, (h.2.2.2 (by decide)).1⟩

/-- C8: when the privacy gate denies, `enqueue` is a silent no-op — the
queue state (hence its length) is unchanged, for any payload. -/
theorem enqueue_denied_noop (dnt : Bool) (cfg : Cfg)
    (utm : List (String × String)) (beaconOk : Bool) (store : Store)
    (st : QState) (c : PageCtx) (ty : String) (p : JSVal)
    (h : readyToTrack dnt cfg store.consentGranted = false) :
    (enqueue dnt cfg utm beaconOk store st c ty p).2.1 = st := by
  simp [enqueue, h]

/-- Witness for C8: with do-not-track set, enqueuing onto an empty queue at
the example state leaves the queue state unchanged. -/
theorem enqueue_denied_noop_witness :
    (enqueue true cfgEx [] true storeEx ⟨[], false⟩ ctxEx "pageview"
      (.obj [])).2.1 = ⟨[], false⟩ :=
  enqueue_denied_noop true cfgEx [] true storeEx ⟨[], false⟩ ctxEx
    "pageview" (.obj []) (by decide)

/-- C10: when the privacy gate denies, `enqueue` performs no identity writes
at all — the whole call is the identity on the store (in particular the
persisted visitor id and session record are untouched) and nothing is
sent. -/
theorem enqueue_denied_frame (dnt : Bool) (cfg : Cfg)
    (utm : List (String × String)) (beaconOk : Bool) (store : Store)
    (st : QState) (c : PageCtx) (ty : String) (p : JSVal)
    (h : readyToTrack dnt cfg store.consentGranted = false) :
    enqueue dnt cfg utm beaconOk store st c ty p =
      (store, st, .noSend) ∧
    (enqueue dnt cfg utm beaconOk store st c ty p).1.vid = store.vid ∧
    (enqueue dnt cfg utm beaconOk store st c ty p).1.sid = store.sid := by
  simp [enqueue, h]

/-- Witness for C10: with do-not-track set, the example call leaves the
visitor id and session record exactly as stored. -/
theorem enqueue_denied_frame_witness :
    (enqueue true cfgEx [] true storeEx ⟨[], false⟩ ctxEx "pageview"
      (.obj [])).1.vid = some "v-1" ∧
    (enqueue true cfgEx [] true storeEx ⟨[], false⟩ ctxEx "pageview"
      (.obj [])).1.sid = some { id := "s-1", started := 0, last := 0 } := by
  have h := enqueue_denied_frame true cfgEx [] true storeEx ⟨[], false⟩
    ctxEx "pageview" (.obj []) (by decide)
  exact ⟨h.2.1, h.2.2⟩

/-- Counterexample to C7 as stated: the do-not-track signal is read once at
script load into the `dnt` constant (line 123), so on a client loaded with
the signal disabled, a later call made after the signal turned on still
returns `true` — not `false` as the claim requires. -/
theorem dnt_not_reread_cex :
    dntSignal ⟨none, none, none⟩ = false ∧
    dntSignal ⟨some "1", none, none⟩ = true ∧
    readyToTrackAt ⟨none, none, none⟩ ⟨none, none, none⟩ cfgEx true =
      true ∧
    readyToTrackAt ⟨none, none, none⟩ ⟨some "1", none, none⟩ cfgEx true ≠
      false := by
  decide

/-- C7 amended: the consent flag and configuration are re-read on every
call, but the do-not-track signal is sampled once at script load — the
result of a call does not depend on the current environment at all, and
whenever the load-time signal was enabled every later call returns
false. -/
theorem dnt_sampled_at_load (initEnv e1 e2 : Env) (cfg : Cfg) (g : Bool) :
    readyToTrackAt initEnv e1 cfg g = readyToTrackAt initEnv e2 cfg g ∧
    (dntSignal initEnv = true →
      readyToTrackAt initEnv e1 cfg g = false) := by
  refine ⟨rfl, ?_⟩
  intro h
  simp [readyToTrackAt, readyToTrack, h]

/-- Witness for the amended C7: a client loaded with the signal enabled
denies tracking on every later call, whatever the current environment. -/
theorem dnt_sampled_at_load_witness :
    readyToTrackAt ⟨some "1", none, none⟩ ⟨none, none, none⟩ cfgEx true =
      false :=
  (dnt_sampled_at_load ⟨some "1", none, none⟩ ⟨none, none, none⟩
    ⟨none, none, none⟩ cfgEx true).2 (by decide)

/-- A concrete event record, built by the code's own constructor. -/
def evEx : Event :=
  (baseEvent cfgEx [] storeEx ctxEx "pageview" (.obj [])).1

/-- C5: `flush` is a no-op (state unchanged, nothing sent) when the gate
denies, a flush is in progress, or the queue is empty; otherwise it removes
the entire queue as one point-in-time snapshot batch — on the beacon path
synchronously with `flushing` ending false, on the fallback path with
`flushing` left set until the POST settles — and records enqueued while the
POST is in flight are not part of the batch and remain queued after a
successful settlement. -/
theorem flush_noop_and_snapshot (dnt : Bool) (cfg : Cfg) (store : Store)
    (st : QState) (b : Bool) :
    (readyToTrack dnt cfg store.consentGranted = false →
      flushSync dnt cfg store st b = (st, .noSend)) ∧
    (st.flushing = true → flushSync dnt cfg store st b = (st, .noSend)) ∧
    (st.queue = [] → flushSync dnt cfg store st b = (st, .noSend)) ∧
    (readyToTrack dnt cfg store.consentGranted = true →
      st.flushing = false → st.queue ≠ [] →
      flushSync dnt cfg store st true = (⟨[], false⟩, .beacon st.queue) ∧
      flushSync dnt cfg store st false =
        (⟨[], true⟩, .fetchPending st.queue) ∧
      (∀ interleaved : List Event,
        fetchSettle ⟨interleaved, true⟩ st.queue true =
          ⟨interleaved, false⟩)) := by
  refine ⟨?_, ?_, ?_, ?_⟩
  · intro h
    exact flushSync_noop dnt cfg store st b (Or.inl h)
  · intro h
    exact flushSync_noop dnt cfg store st b (Or.inr (Or.inl h))
  · intro h
    exact flushSync_noop dnt cfg store st b
      (Or.inr (Or.inr (by simp [h])))
  · intro hready hfl hq
    refine ⟨?_, ?_, ?_⟩
    · simpa using flushSync_go dnt cfg store st true hready hfl hq
    · simpa using flushSync_go dnt cfg store st false hready hfl hq
    · intro interleaved
      simp [fetchSettle]

/-- Witness for C5 at a concrete state: a flush already in progress is a
no-op, and an allowed flush on a one-record queue with the beacon
unavailable removes that record into the in-flight batch. -/
theorem flush_noop_and_snapshot_witness :
    flushSync false cfgEx storeEx ⟨[evEx], true⟩ true =
      (⟨[evEx], true⟩, .noSend) ∧
    flushSync false cfgEx storeEx ⟨[evEx], false⟩ false =
      (⟨[], true⟩, .fetchPending [evEx]) := by
  have h1 := flush_noop_and_snapshot false cfgEx storeEx ⟨[evEx], true⟩ true
  have h2 := flush_noop_and_snapshot false cfgEx storeEx
    ⟨[evEx], false⟩ false
  exact ⟨h1.2.1 rfl, ((h2.2.2.2 (by decide) rfl (by simp)).2.1)⟩

/-- C6: the referrer-trail append keeps the length at most 5 evicting the
oldest entry first; it appends only when the new referrer differs from the
current last entry, so a repeated consecutive append is a no-op and six
successive distinct (non-empty) referrers leave the oldest evicted.  The
distinctness hypotheses are only required between consecutive referrers,
which pairwise distinctness implies. -/
theorem refTrail_invariants :
    (∀ (trail : List String) (r : String), trail.length ≤ 5 →
      (refTrailAppend trail r).length ≤ 5) ∧
    (∀ (trail : List String) (r : String),
      refTrailAppend (refTrailAppend trail r) r = refTrailAppend trail r) ∧
    (∀ (trail : List String) (r : String), trail.length = 5 → r ≠ "" →
      trail.getLast? ≠ some r →
      refTrailAppend trail r = trail.tail ++ [r]) ∧
    (∀ r1 r2 r3 r4 r5 r6 : String,
      r1 ≠ "" → r2 ≠ "" → r3 ≠ "" → r4 ≠ "" → r5 ≠ "" → r6 ≠ "" →
      r1 ≠ r2 → r2 ≠ r3 → r3 ≠ r4 → r4 ≠ r5 → r5 ≠ r6 →
      List.foldl refTrailAppend [] [r1, r2, r3, r4, r5, r6] =
        [r2, r3, r4, r5, r6]) := by
  refine ⟨?_, ?_, ?_, ?_⟩
  · intro trail r h
    unfold refTrailAppend
    split
    · split
      · rename_i hgt
        simp only [List.length_tail, List.length_append,
          List.length_singleton]
        omega
      · rename_i hle
        simp only [List.length_append, List.length_singleton] at hle ⊢
        omega
    · exact h
  · intro trail r
    by_cases hc : r ≠ "" ∧ (trail = [] ∨ trail.getLast? ≠ some r)
    · have hlast : (refTrailAppend trail r).getLast? = some r ∧
          refTrailAppend trail r ≠ [] := by
        unfold refTrailAppend
        rw [if_pos hc]
        split
        · rename_i hgt
          cases trail with
          | nil => simp at hgt
          | cons x xs =>
              constructor
              · simp [List.getLast?_concat]
              · simp
        · constructor
          · simp [List.getLast?_concat]
          · simp
      generalize hT : refTrailAppend trail r = t' at hlast ⊢
      conv_lhs => unfold refTrailAppend
      rw [if_neg]
      rintro ⟨-, h2 | h2⟩
      · exact hlast.2 h2
      · exact h2 hlast.1
    · have hno : refTrailAppend trail r = trail := by
        unfold refTrailAppend
        rw [if_neg hc]
      rw [hno, hno]
  · intro trail r h5 hr hl
    unfold refTrailAppend
    rw [if_pos ⟨hr, Or.inr hl⟩,
      if_pos (by simp [List.length_append, h5])]
    cases trail with
    | nil => simp at h5
    | cons x xs => simp
  · intro r1 r2 r3 r4 r5 r6 h1 h2 h3 h4 h5 h6 h12 h23 h34 h45 h56
    have e1 : refTrailAppend [] r1 = [r1] := by
      unfold refTrailAppend
      rw [if_pos ⟨h1, Or.inl rfl⟩]
      simp
    have e2 : refTrailAppend [r1] r2 = [r1, r2] := by
      unfold refTrailAppend
      rw [if_pos ⟨h2, Or.inr (by simp [h12])⟩]
      simp
    have e3 : refTrailAppend [r1, r2] r3 = [r1, r2, r3] := by
      unfold refTrailAppend
      rw [if_pos ⟨h3, Or.inr (by simp [List.getLast?, h23])⟩]
      simp
    have e4 : refTrailAppend [r1, r2, r3] r4 = [r1, r2, r3, r4] := by
      unfold refTrailAppend
      rw [if_pos ⟨h4, Or.inr (by simp [List.getLast?, h34])⟩]
      simp
    have e5 : refTrailAppend [r1, r2, r3, r4] r5 =
        [r1, r2, r3, r4, r5] := by
      unfold refTrailAppend
      rw [if_pos ⟨h5, Or.inr (by simp [List.getLast?, h45])⟩]
      simp
    have e6 : refTrailAppend [r1, r2, r3, r4, r5] r6 =
        [r2, r3, r4, r5, r6] := by
      unfold refTrailAppend
      rw [if_pos ⟨h6, Or.inr (by simp [List.getLast?, h56])⟩]
      simp
    simp only [List.foldl, e1, e2, e3, e4, e5, e6]

/-- Witness for C6: six concrete distinct referrers starting from an empty
trail leave the five most recent, oldest evicted. -/
theorem refTrail_invariants_witness :
    List.foldl refTrailAppend [] ["a", "b", "c", "d", "e", "f"] =
      ["b", "c", "d", "e", "f"] :=
  refTrail_invariants.2.2.2 "a" "b" "c" "d" "e" "f"
    (by decide) (by decide) (by decide) (by decide) (by decide) (by decide)
    (by decide) (by decide) (by decide) (by decide) (by decide)

/-- A second concrete event record, for the interleaved-enqueue witness. -/
def evEx2 : Event :=
  (baseEvent cfgEx [] storeEx ctxEx "click" (.obj [])).1

lemma createdRecords_length (cfg : Cfg) (utm : List (String × String)) :
    ∀ (store : Store) (calls : List EnqCall),
      (createdRecords cfg utm store calls).length = calls.length := by
  intro store calls
  induction calls generalizing store with
  | nil => rfl
  | cons call rest ih => simp [createdRecords, ih]

lemma enqueueMany_below (dnt : Bool) (cfg : Cfg)
    (utm : List (String × String)) (beaconOk : Bool)
    (calls : List EnqCall) :
    ∀ (store : Store) (st : QState),
      readyToTrack dnt cfg store.consentGranted = true →
      st.flushing = false →
      st.queue.length + calls.length < cfg.maxBatch →
      (enqueueMany dnt cfg utm beaconOk (store, st) calls).2 =
        ⟨st.queue ++ createdRecords cfg utm store calls, false⟩ := by
  induction calls with
  | nil =>
      intro store st hready hfl hlen
      rcases st with ⟨q, fl⟩
      simp at hfl
      simp [enqueueMany, createdRecords, hfl]
  | cons call rest ih =>
      intro store st hready hfl hlen
      have hlt : st.queue.length + 1 < cfg.maxBatch := by
        simp at hlen
        omega
      have hstep := enqueue_allowed_append dnt cfg utm beaconOk store st
        call.c call.type call.payload hready hlt
      simp only [enqueueMany, hstep]
      have hready' : readyToTrack dnt cfg
          ((baseEvent cfg utm store call.c call.type
            call.payload).2).consentGranted = true := by
        rw [baseEvent_consent]
        exact hready
      rw [ih _ _ hready' (by simp [hfl]) (by simp at hlen ⊢; omega)]
      simp [createdRecords, hfl]

/-- C3: while tracking is allowed and no flush is in progress, an enqueue
that brings the queue length to `cfg.maxBatch` synchronously flushes from
within `enqueue` — with the beacon send succeeding, the queue is empty when
`enqueue` returns and the whole batch went out; and any sequence of N calls
with room below the batch size leaves exactly the N created records queued
in call order. -/
theorem enqueue_batch_behaviour (dnt : Bool) (cfg : Cfg)
    (utm : List (String × String)) (store : Store) (st : QState)
    (hready : readyToTrack dnt cfg store.consentGranted = true)
    (hfl : st.flushing = false) :
    (∀ (c : PageCtx) (ty : String) (p : JSVal),
      st.queue.length + 1 = cfg.maxBatch →
      (enqueue dnt cfg utm true store st c ty p).2.1 = ⟨[], false⟩ ∧
      (enqueue dnt cfg utm true store st c ty p).2.2 =
        .beacon (st.queue ++ [(baseEvent cfg utm store c ty p).1])) ∧
    (∀ (beaconOk : Bool) (calls : List EnqCall),
      st.queue.length + calls.length < cfg.maxBatch →
      (enqueueMany dnt cfg utm beaconOk (store, st) calls).2 =
        ⟨st.queue ++ createdRecords cfg utm store calls, false⟩) ∧
    (∀ (store2 : Store) (calls : List EnqCall),
      (createdRecords cfg utm store2 calls).length = calls.length) := by
  refine ⟨?_, ?_, ?_⟩
  · intro c ty p hmax
    have hready' : readyToTrack dnt cfg
        ((baseEvent cfg utm store c ty p).2).consentGranted = true := by
      rw [baseEvent_consent]
      exact hready
    have hmain : enqueue dnt cfg utm true store st c ty p =
        ((baseEvent cfg utm store c ty p).2, ⟨[], false⟩,
          .beacon (st.queue ++ [(baseEvent cfg utm store c ty p).1])) := by
      unfold enqueue
      rw [hready]
      simp only [Bool.true_eq_false, if_false]
      rw [if_pos (by simp; omega)]
      rw [flushSync_go dnt cfg _ _ true hready' (by simp [hfl]) (by simp)]
      simp
    rw [hmain]
    exact ⟨rfl, rfl⟩
  · intro beaconOk calls hlen
    exact enqueueMany_below dnt cfg utm beaconOk calls store st hready hfl
      hlen
  · intro store2 calls
    exact createdRecords_length cfg utm store2 calls

/-- Witness for C3: from an empty queue with batch size 20, two enqueue
calls leave exactly the two created records queued, in call order. -/
theorem enqueue_batch_behaviour_witness :
    (enqueueMany false cfgEx [] true (storeEx, ⟨[], false⟩)
      [⟨ctxEx, "pageview", .obj []⟩, ⟨ctxEx, "click", .obj []⟩]).2 =
      ⟨createdRecords cfgEx [] storeEx
        [⟨ctxEx, "pageview", .obj []⟩, ⟨ctxEx, "click", .obj []⟩],
        false⟩ := by
  have h := enqueue_batch_behaviour false cfgEx [] storeEx ⟨[], false⟩
    (by decide) rfl
  simpa using h.2.1 true
    [⟨ctxEx, "pageview", .obj []⟩, ⟨ctxEx, "click", .obj []⟩] (by decide)

/-- Counterexample to C1 as stated: the fallback `fetch` chain (lines
183-185) attaches only `.catch`, and a non-2xx response — here a 500 —
resolves the promise, so the `.catch` requeue never runs: after settlement
the queue is empty, not "again containing exactly the failed records", and
the batch is lost. -/
theorem flush_non2xx_cex :
    fetchSettleOutcome ⟨[], true⟩ [evEx] (.resolved 500) = ⟨[], false⟩ ∧
    (fetchSettleOutcome ⟨[], true⟩ [evEx] (.resolved 500)).queue ≠
      [evEx] := by
  refine ⟨rfl, fun h => ?_⟩
  exact List.noConfusion h

/-- C1 amended: when the fallback POST fails with a network error (the
fetch promise rejects), the entire failed batch is pushed back onto the
front of the queue in its original order, ahead of anything enqueued while
the POST was in flight (such enqueues only append, since the `flushing`
mutex suppresses their flush attempts); `flushing` is cleared whatever the
settlement outcome, and a subsequent successful flush delivers exactly the
requeued batch followed by the interleaved records — no duplicates, no
loss.  A non-2xx response, by contrast, resolves the promise: the batch is
dropped, not requeued. -/
theorem flush_requeue_on_reject (dnt : Bool) (cfg : Cfg)
    (utm : List (String × String)) (store store2 : Store)
    (b E : List Event)
    (hready : readyToTrack dnt cfg store.consentGranted = true)
    (hready2 : readyToTrack dnt cfg store2.consentGranted = true)
    (hb : b ≠ []) :
    flushSync dnt cfg store ⟨b, false⟩ false =
      (⟨[], true⟩, .fetchPending b) ∧
    (∀ (store' : Store) (st : QState) (c : PageCtx) (ty : String)
        (p : JSVal) (bOk : Bool), st.flushing = true →
      readyToTrack dnt cfg store'.consentGranted = true →
      (enqueue dnt cfg utm bOk store' st c ty p).2.1 =
        ⟨st.queue ++ [(baseEvent cfg utm store' c ty p).1], true⟩ ∧
      (enqueue dnt cfg utm bOk store' st c ty p).2.2 = .noSend) ∧
    fetchSettleOutcome ⟨E, true⟩ b .rejected = ⟨b ++ E, false⟩ ∧
    (∀ status : Nat,
      fetchSettleOutcome ⟨E, true⟩ b (.resolved status) = ⟨E, false⟩) ∧
    flushSync dnt cfg store2 ⟨b ++ E, false⟩ true =
      (⟨[], false⟩, .beacon (b ++ E)) := by
  refine ⟨?_, ?_, ?_, ?_, ?_⟩
  · simpa using flushSync_go dnt cfg store ⟨b, false⟩ false hready rfl hb
  · intro store' st c ty p bOk hflight hready'
    unfold enqueue
    rw [hready']
    simp only [Bool.true_eq_false, if_false]
    by_cases hmb : cfg.maxBatch ≤ st.queue.length + 1
    · rw [if_pos (by simp; omega)]
      rw [flushSync_noop dnt cfg _ _ bOk
        (Or.inr (Or.inl (by simp [hflight])))]
      exact ⟨by simp [hflight], rfl⟩
    · rw [if_neg (by simp; omega)]
      exact ⟨by simp [hflight], rfl⟩
  · simp [fetchSettleOutcome]
  · intro status
    simp [fetchSettleOutcome]
  · simpa using flushSync_go dnt cfg store2 ⟨b ++ E, false⟩ true hready2
      rfl (by simp [hb])

/-- Witness for the amended C1 at concrete records: a rejected POST's
settlement puts the batch back in front of the record enqueued meanwhile,
and the next (successful) flush delivers both in order. -/
theorem flush_requeue_on_reject_witness :
    fetchSettleOutcome ⟨[evEx2], true⟩ [evEx] .rejected =
      ⟨[evEx, evEx2], false⟩ ∧
    flushSync false cfgEx storeEx ⟨[evEx, evEx2], false⟩ true =
      (⟨[], false⟩, .beacon [evEx, evEx2]) := by
  have h := flush_requeue_on_reject false cfgEx [] storeEx storeEx [evEx]
    [evEx2] (by decide) (by decide) (by simp)
  exact ⟨by simpa using h.2.2.1, by simpa using h.2.2.2.2⟩

lemma ccEmbedTrackPayload_nonobj (p : JSVal) (hp : p.typeof ≠ "object") :
    ccEmbedTrackPayload p = .obj [] := by
  unfold ccEmbedTrackPayload
  rw [if_neg (by simp [hp])]

/-- Counterexample to C9 as stated: `API.track` (`window.CC.embed.track`,
line 455) is `enqueue` itself, so a non-object payload passed through this
public tracking entry point is stored unchanged in the created record — not
coerced to an empty object. -/
theorem track_payload_cex :
    ((apiTrack false cfgEx [] true storeEx ⟨[], false⟩ ctxEx "custom"
      (.numv 7)).2.1.queue.map Event.payload) = [JSVal.numv 7] ∧
    JSVal.typeof (.numv 7) ≠ "object" ∧
    JSVal.numv 7 ≠ JSVal.obj [] := by
  refine ⟨rfl, by decide, fun h => by cases h⟩

/-- C9 amended: the coercion of a non-object payload to an empty object is
performed by the `window.CC_EMBED.track` entry point (line 769); the
`API.track` entry point stores the payload unchanged. -/
theorem track_payload_coercion (p : JSVal) (dnt : Bool) (cfg : Cfg)
    (utm : List (String × String)) (store : Store) (st : QState)
    (c : PageCtx) (ty : JSVal)
    (hp : p.typeof ≠ "object")
    (hready : readyToTrack dnt cfg store.consentGranted = true)
    (hlen : st.queue.length + 1 < cfg.maxBatch) :
    (ccEmbedTrack dnt cfg utm true store st c ty p).2.1.queue.map
        Event.payload = st.queue.map Event.payload ++ [JSVal.obj []] ∧
    (apiTrack dnt cfg utm true store st c (ccEmbedTrackType ty)
        p).2.1.queue.map Event.payload =
      st.queue.map Event.payload ++ [p] := by
  constructor
  · unfold ccEmbedTrack
    rw [enqueue_allowed_append _ _ _ _ _ _ _ _ _ hready hlen]
    simp [baseEvent_payload, ccEmbedTrackPayload_nonobj p hp]
  · unfold apiTrack
    rw [enqueue_allowed_append _ _ _ _ _ _ _ _ _ hready hlen]
    simp [baseEvent_payload]

/-- Witness for the amended C9: a numeric payload through
`window.CC_EMBED.track` is stored as the empty object. -/
theorem track_payload_coercion_witness :
    (ccEmbedTrack false cfgEx [] true storeEx ⟨[], false⟩ ctxEx
      (.strv "custom") (.numv 7)).2.1.queue.map Event.payload =
      [JSVal.obj []] := by
  have h := track_payload_coercion (.numv 7) false cfgEx [] storeEx
    ⟨[], false⟩ ctxEx (.strv "custom") (by decide) (by decide) (by decide)
  simpa using h.1

end CC
